import Mathlib

set_option maxRecDepth 8192

/-!
Shallow embedding of the TaskWarrior MCP server's request-to-command
translation layer (src/index.ts).

Zod request schemas become Boolean validators, the argument builders become
pure functions over option-typed records, and each tool handler becomes a
function from its parsed arguments to either the command-line string handed
to execSync or an error.  JavaScript truthiness on optional string fields
(undefined and the empty string are both falsy) is modelled explicitly.
The dynamic detail text of a zod validation failure is abstracted to the
name of the failing operation; date-format errors keep the full message.
-/

/-- The single-quote character (ASCII 39). -/
def squote : Char := Char.ofNat 39

/-- The backslash character (ASCII 92). -/
def backslash : Char := Char.ofNat 92

/-- One step of the replacement in escapeShellArg: a single quote becomes
the four characters quote, backslash, quote, quote; every other character
is kept. -/
def escChar (c : Char) : List Char :=
  if c = squote then [squote, backslash, squote, squote] else [c]

/-- The global replace in escapeShellArg applied to a whole character
list. -/
def escBody : List Char → List Char
  | [] => []
  | c :: t => escChar c ++ escBody t

/-- escapeShellArg from src/index.ts line 21: wrap the argument in single
quotes after replacing every embedded single quote. -/
def escapeShellArg (arg : String) : String :=
  String.mk (squote :: escBody arg.data ++ [squote])

/-- POSIX shell word evaluation (quote removal) for the fragment of the
quoting language that escaped tokens use: single-quoted spans, in which
every character is literal, and an unquoted backslash, which makes the
next character literal.  The Bool flag records whether evaluation is
inside a single-quoted span; none means the word is malformed
(unterminated quote or trailing backslash). -/
def shEval : Bool → List Char → Option (List Char)
  | false, [] => some []
  | true, [] => none
  | true, c :: rest =>
    if c = squote then shEval false rest
    else (shEval true rest).map (fun l => c :: l)
  | false, c :: rest =>
    if c = squote then shEval true rest
    else if c = backslash then
      match rest with
      | [] => none
      | d :: rest2 => (shEval false rest2).map (fun l => d :: l)
    else (shEval false rest).map (fun l => c :: l)

/-- Consume exactly n ASCII digits. -/
def digitsExactly : Nat → List Char → Option (List Char)
  | 0, cs => some cs
  | _ + 1, [] => none
  | n + 1, c :: cs => if c.isDigit then digitsExactly n cs else none

/-- Consume one expected character. -/
def expectChar (c : Char) : List Char → Option (List Char)
  | [] => none
  | d :: cs => if d = c then some cs else none

/-- Time-zone tail of the ISO regex: empty, a literal Z, or a sign with
hh:mm. -/
def isoZone (cs : List Char) : Bool :=
  match cs with
  | [] => true
  | [c] => c = 'Z'
  | c :: rest =>
    (c = '+' || c = '-') &&
      (match digitsExactly 2 rest with
       | some r1 =>
         match expectChar ':' r1 with
         | some r2 =>
           match digitsExactly 2 r2 with
           | some [] => true
           | _ => false
         | none => false
       | none => false)

/-- Optional fractional-seconds part of the ISO regex, followed by the
time-zone tail. -/
def isoFrac (cs : List Char) : Bool :=
  match cs with
  | c :: rest =>
    if c = '.' then
      match digitsExactly 3 rest with
      | some r => isoZone r
      | none => false
    else isoZone cs
  | [] => isoZone cs

/-- The mandatory clock part of the ISO time: T hh:mm:ss. -/
def isoTimeBody (cs : List Char) : Option (List Char) :=
  (expectChar 'T' cs).bind fun r1 =>
    (digitsExactly 2 r1).bind fun r2 =>
      (expectChar ':' r2).bind fun r3 =>
        (digitsExactly 2 r3).bind fun r4 =>
          (expectChar ':' r4).bind fun r5 =>
            digitsExactly 2 r5

/-- The ISO-8601 regex of parseFlexibleDate: a yyyy-mm-dd date with an
optional T hh:mm:ss time, optional milliseconds, optional zone. -/
def isoTest (s : String) : Bool :=
  match
    (digitsExactly 4 s.data).bind fun r1 =>
      (expectChar '-' r1).bind fun r2 =>
        (digitsExactly 2 r2).bind fun r3 =>
          (expectChar '-' r3).bind fun r4 =>
            digitsExactly 2 r4
  with
  | none => false
  | some [] => true
  | some rest =>
    match isoTimeBody rest with
    | some r => isoFrac r
    | none => false

/-- The unit letter of a relative-offset date. -/
def relUnit (c : Char) : Bool :=
  c = 'd' || c = 'w' || c = 'm' || c = 'q' || c = 'y'

/-- Zero or more digits followed by a final unit letter. -/
def relRest : List Char → Bool
  | [] => false
  | [c] => relUnit c
  | c :: rest => c.isDigit && relRest rest

/-- At least one digit followed by a unit letter. -/
def relDigitsThenUnit : List Char → Bool
  | [] => false
  | [_] => false
  | c :: rest => c.isDigit && relRest rest

/-- The relative-offset regex of parseFlexibleDate: sign, digits, unit. -/
def relativeTest (s : String) : Bool :=
  match s.data with
  | [] => false
  | c :: rest => (c = '+' || c = '-') && relDigitsThenUnit rest

/-- ASCII lower-casing of a whole string, as the case-insensitive regex
flag behaves on the alternatives involved. -/
def lowerStr (s : String) : String :=
  String.mk (s.data.map Char.toLower)

/-- The named special dates of parseFlexibleDate, case-insensitive. -/
def specialTest (s : String) : Bool :=
  ["eom", "eoq", "eoy", "som", "soq", "soy",
   "today", "tomorrow", "yesterday", "now"].contains (lowerStr s)

/-- Weekday names, case-insensitive. -/
def dayTest (s : String) : Bool :=
  ["monday", "tuesday", "wednesday", "thursday",
   "friday", "saturday", "sunday"].contains (lowerStr s)

/-- Month names, case-insensitive. -/
def monthTest (s : String) : Bool :=
  ["january", "february", "march", "april", "may", "june", "july",
   "august", "september", "october", "november", "december"].contains (lowerStr s)

/-- A two-letter ordinal ending, case-insensitive. -/
def ordSuffix (a b : Char) : Bool :=
  (a.toLower = 's' && b.toLower = 't') || (a.toLower = 'n' && b.toLower = 'd') ||
  (a.toLower = 'r' && b.toLower = 'd') || (a.toLower = 't' && b.toLower = 'h')

/-- The ordinal-date regex of parseFlexibleDate: one or two digits and an
ordinal ending. -/
def ordinalTest (s : String) : Bool :=
  match s.data with
  | [d, a, b] => d.isDigit && ordSuffix a b
  | [d1, d2, a, b] => d1.isDigit && d2.isDigit && ordSuffix a b
  | _ => false

/-- The acceptance condition of parseFlexibleDate: the disjunction of its
six regex tests, in source order. -/
def flexibleDateOk (s : String) : Bool :=
  isoTest s || relativeTest s || specialTest s || dayTest s || monthTest s ||
    ordinalTest s

/-- Errors a handler can produce before any process is spawned. -/
inductive CmdError where
  | invalidArgs (op : String)
  | dateFormat (msg : String)
deriving DecidableEq, Repr

/-- The message of the error thrown by parseFlexibleDate. -/
def dateErrMsg (s : String) : String :=
  "Invalid date format: \"" ++ s ++
    "\". Supported formats: ISO timestamps (2024-01-15T10:30:00Z), relative dates (+7d, -2w), special dates (today, tomorrow, eom), day names (monday), or ordinal dates (15th)"

/-- parseFlexibleDate from src/index.ts line 27: return the input
unchanged when some regex accepts it, otherwise throw. -/
def parseFlexibleDate (s : String) : Except CmdError String :=
  if flexibleDateOk s then .ok s else .error (.dateFormat (dateErrMsg s))

/-- Zod enum for priority: accepted when absent or one of H, M, L. -/
def priorityOk : Option String → Bool
  | none => true
  | some p => p == "H" || p == "M" || p == "L"

/-- Zod regex for project names: nonempty text over letters, digits, dot,
underscore, hyphen; accepted when absent. -/
def projectOk : Option String → Bool
  | none => true
  | some p =>
    !p.data.isEmpty &&
      p.data.all (fun c => c.isAlphanum || c == '.' || c == '_' || c == '-')

/-- Zod regex for a single tag: nonempty text over at-sign, lowercase
letters, digits, underscore, hyphen. -/
def tagRegex (s : String) : Bool :=
  !s.data.isEmpty &&
    s.data.all (fun c => c == '@' || c.isLower || c.isDigit || c == '_' || c == '-')

/-- A zod min-length-one constraint on an optional string field. -/
def optMin1 : Option String → Bool
  | none => true
  | some s => !s.isEmpty

/-- A per-element constraint on an optional list field. -/
def optAll (f : String → Bool) : Option (List String) → Bool
  | none => true
  | some l => l.all f

/-- Zod enum for clear_fields entries. -/
def clearFieldOk (f : String) : Bool :=
  ["due", "start", "wait", "until", "scheduled",
   "priority", "project", "depends"].contains f

/-- The optional modification fields shared by modifyTaskRequest and
modifyTasksBulkRequest. -/
structure ModifyData where
  description : Option String := none
  due : Option String := none
  priority : Option String := none
  start : Option String := none
  stop_task : Bool := false
  wait : Option String := none
  -- the source field is named until, which Lean reserves
  untilDate : Option String := none
  scheduled : Option String := none
  project : Option String := none
  depends : Option (List String) := none
  tags : Option (List String) := none
  tags_remove : Option (List String) := none
  clear_fields : Option (List String) := none

/-- The shared field constraints of modifyTaskRequest and
modifyTasksBulkRequest. -/
def modifyFieldsValid (d : ModifyData) : Bool :=
  optMin1 d.description && optMin1 d.due && optMin1 d.start && optMin1 d.wait &&
  optMin1 d.untilDate && optMin1 d.scheduled && priorityOk d.priority &&
  projectOk d.project && optAll (fun s => !s.isEmpty) d.depends &&
  optAll tagRegex d.tags && optAll tagRegex d.tags_remove &&
  optAll clearFieldOk d.clear_fields

/-- modifyTaskRequest: identifier must be nonempty, fields constrained. -/
def modifyTaskValid (identifier : String) (d : ModifyData) : Bool :=
  !identifier.isEmpty && modifyFieldsValid d

/-- modifyTasksBulkRequest: filter must be nonempty, fields constrained. -/
def modifyBulkValid (filter : String) (d : ModifyData) : Bool :=
  !filter.isEmpty && modifyFieldsValid d

/-- The fields of addTaskRequest. -/
structure AddData where
  description : String
  due : Option String := none
  priority : Option String := none
  project : Option String := none
  tags : Option (List String) := none

/-- addTaskRequest: description and due are plain strings with no
minimum-length rule; priority, project and tags are constrained. -/
def addTaskValid (d : AddData) : Bool :=
  priorityOk d.priority && projectOk d.project && optAll tagRegex d.tags

/-- JavaScript truthiness on an optional string field: undefined and the
empty string are both skipped. -/
def strIf (f : String → List String) : Option String → List String
  | none => []
  | some s => if s.isEmpty then [] else f s

/-- A date field in the builders: skipped when absent or empty, validated
through parseFlexibleDate and then emitted raw as field:value. -/
def dateArg (field : String) : Option String → Except CmdError (List String)
  | none => .ok []
  | some d =>
    if d.isEmpty then .ok []
    else
      match parseFlexibleDate d with
      | .ok _ => .ok [field ++ ":" ++ d]
      | .error e => .error e

/-- buildTaskModifyArgs from src/index.ts line 59; date fields are
validated in source order (due, start, wait, until, scheduled) and tokens
are emitted in source order. -/
def buildTaskModifyArgs (data : ModifyData) : Except CmdError (List String) :=
  match dateArg "due" data.due with
  | .error e => .error e
  | .ok dueArgs =>
    match dateArg "start" data.start with
    | .error e => .error e
    | .ok startArgs =>
      match dateArg "wait" data.wait with
      | .error e => .error e
      | .ok waitArgs =>
        match dateArg "until" data.untilDate with
        | .error e => .error e
        | .ok untilArgs =>
          match dateArg "scheduled" data.scheduled with
          | .error e => .error e
          | .ok schedArgs =>
            .ok (strIf (fun s => ["description:" ++ escapeShellArg s]) data.description ++
              dueArgs ++
              strIf (fun p => ["priority:" ++ p]) data.priority ++
              startArgs ++
              (if data.stop_task then ["start:"] else []) ++
              waitArgs ++ untilArgs ++ schedArgs ++
              strIf (fun p => ["project:" ++ p]) data.project ++
              (match data.depends with
               | some ds => ["depends:" ++ String.intercalate "," ds]
               | none => []) ++
              (match data.tags with
               | some ts => ts.map (fun t => "+" ++ t)
               | none => []) ++
              (match data.tags_remove with
               | some ts => ts.map (fun t => "-" ++ t)
               | none => []) ++
              (match data.clear_fields with
               | some fs => fs.map (fun f => f ++ ":")
               | none => []))

/-- The token list built by the add_task handler: description is always
escaped, due is validated then raw, priority raw, project and tags
escaped. -/
def addTaskArgs (d : AddData) : Except CmdError (List String) :=
  match dateArg "due" d.due with
  | .error e => .error e
  | .ok dueArgs =>
    .ok (["add", escapeShellArg d.description] ++ dueArgs ++
      strIf (fun p => ["priority:" ++ p]) d.priority ++
      strIf (fun p => ["project:" ++ escapeShellArg p]) d.project ++
      (match d.tags with
       | some ts => ts.map (fun t => "+" ++ escapeShellArg t)
       | none => []))

/-- mark_task_done handler: the schema is a plain string, so every string
identifier is accepted and the command is built with it inserted raw. -/
def mark_task_done (identifier : String) : Except CmdError String :=
  .ok ("task " ++ identifier ++ " done")

/-- get_task_info handler: plain-string identifier inserted raw. -/
def get_task_info (identifier : String) : Except CmdError String :=
  .ok ("task " ++ identifier ++ " info")

/-- delete_task handler: rc.confirmation=no then the raw identifier. -/
def delete_task (identifier : String) : Except CmdError String :=
  .ok ("task rc.confirmation=no " ++ identifier ++ " delete")

/-- annotate_task handler: raw identifier, escaped annotation text. -/
def annotate_task (identifier : String) (text : String) : Except CmdError String :=
  .ok ("task " ++ identifier ++ " annotate " ++ escapeShellArg text)

/-- append_task handler: raw identifier, escaped text. -/
def append_task (identifier : String) (text : String) : Except CmdError String :=
  .ok ("task " ++ identifier ++ " append " ++ escapeShellArg text)

/-- prepend_task handler: raw identifier, escaped text. -/
def prepend_task (identifier : String) (text : String) : Except CmdError String :=
  .ok ("task " ++ identifier ++ " prepend " ++ escapeShellArg text)

/-- duplicate_task handler: raw identifier. -/
def duplicate_task (identifier : String) : Except CmdError String :=
  .ok ("task " ++ identifier ++ " duplicate")

/-- undo_last handler: fixed command with the confirmation override. -/
def undo_last : Except CmdError String :=
  .ok "task rc.confirmation=no undo"

/-- add_task handler: validate, build tokens, join with single spaces. -/
def add_task (d : AddData) : Except CmdError String :=
  if addTaskValid d then
    match addTaskArgs d with
    | .ok args => .ok ("task " ++ String.intercalate " " args)
    | .error e => .error e
  else .error (.invalidArgs "add_task")

/-- modify_task handler: validate, build tokens, insert the shell-escaped
identifier, join with single spaces. -/
def modify_task (identifier : String) (d : ModifyData) : Except CmdError String :=
  if modifyTaskValid identifier d then
    match buildTaskModifyArgs d with
    | .ok args =>
      .ok ("task " ++ escapeShellArg identifier ++ " modify " ++
        String.intercalate " " args)
    | .error e => .error e
  else .error (.invalidArgs "modify_task")

/-- modify_tasks_bulk handler: validate, build tokens, prepend the yes
pipe, insert the raw filter, join with single spaces. -/
def modify_tasks_bulk (filter : String) (d : ModifyData) : Except CmdError String :=
  if modifyBulkValid filter d then
    match buildTaskModifyArgs d with
    | .ok args =>
      .ok ("yes | task " ++ filter ++ " modify " ++ String.intercalate " " args)
    | .error e => .error e
  else .error (.invalidArgs "modify_tasks_bulk")

/-- The tool names advertised by the ListTools handler, in source order. -/
def toolCatalog : List String :=
  ["get_next_tasks", "mark_task_done", "add_task", "modify_task",
   "modify_tasks_bulk", "get_task_info", "count_tasks", "list_tasks_filtered",
   "delete_task", "annotate_task", "append_task", "prepend_task",
   "duplicate_task", "undo_last", "builtin_report", "visualization_report",
   "custom_report"]

/-- The names carried by a case label of the CallTool dispatch switch, in
source order; every other name falls through to the unknown-tool error. -/
def dispatchKnown (name : String) : Bool :=
  name == "get_next_tasks" || name == "mark_task_done" || name == "add_task" ||
  name == "modify_task" || name == "modify_tasks_bulk" || name == "get_task_info" ||
  name == "count_tasks" || name == "list_tasks_filtered" || name == "delete_task" ||
  name == "annotate_task" || name == "append_task" || name == "prepend_task" ||
  name == "duplicate_task" || name == "undo_last" || name == "builtin_report" ||
  name == "visualization_report" || name == "custom_report"

/-- Tag pattern as the spec claims it, for comparison with tagRegex: the
character class also admits uppercase letters. -/
def claimedTagPattern (s : String) : Bool :=
  !s.data.isEmpty &&
    s.data.all (fun c => c == '@' || c.isAlpha || c.isDigit || c == '_' || c == '-')

/-- Ordinal days as the spec claims them, for comparison with
ordinalTest: exactly the tokens 1st through 31st. -/
def claimedOrdinals : List String :=
  ["1st", "2nd", "3rd", "4th", "5th", "6th", "7th", "8th", "9th", "10th",
   "11th", "12th", "13th", "14th", "15th", "16th", "17th", "18th", "19th",
   "20th", "21st", "22nd", "23rd", "24th", "25th", "26th", "27th", "28th",
   "29th", "30th", "31st"]

/-- Membership in the claimed ordinal-day grammar. -/
def claimedOrdinalDay (s : String) : Bool :=
  claimedOrdinals.contains s

/-- The date grammar as the claim states it: the five shared grammars
plus ordinal days restricted to 1st through 31st. -/
def claimedDateGrammar (s : String) : Bool :=
  isoTest s || relativeTest s || specialTest s || dayTest s || monthTest s ||
    claimedOrdinalDay s

/-- Does the needle occur at the very start of the haystack? -/
def startsWithSeg : List Char → List Char → Bool
  | [], _ => true
  | _ :: _, [] => false
  | a :: n, b :: h => a == b && startsWithSeg n h

/-- Does the needle occur contiguously anywhere in the haystack? -/
def containsSeg (n : List Char) : List Char → Bool
  | [] => n.isEmpty
  | c :: h => startsWithSeg n (c :: h) || containsSeg n h

/-- The description of the worked example in the spec, It then an
apostrophe then s a test. -/
def itsATest : String :=
  String.mk ['I', 't', squote, 's', ' ', 'a', ' ', 't', 'e', 's', 't']

/-- The escaped token the example must produce. -/
def itsEscaped : String :=
  String.mk [squote, 'I', 't', squote, backslash, squote, squote,
    's', ' ', 'a', ' ', 't', 'e', 's', 't', squote]

/-- The full add_task command for the worked example. -/
def addItsCmd : String := "task add " ++ itsEscaped

/-- An identifier containing an embedded single quote. -/
def idWithQuote : String := String.mk ['a', squote, 'b']

/-- A modification request with every optional field absent. -/
def noMods : ModifyData := {}

/-- The command modify_task builds for idWithQuote with no
modifications. -/
def modCmdQuote : String :=
  "task " ++ escapeShellArg idWithQuote ++ " modify "

/-! Helper lemmas shared by the claim theorems. -/

/-- Appending strings appends their character data associatively. -/
theorem string_append_assoc (a b c : String) : a ++ b ++ c = a ++ (b ++ c) := by
  cases a; cases b; cases c
  show String.mk _ = String.mk _
  rw [List.append_assoc]

/-- The replacement body of escapeShellArg is a homomorphism for list
append. -/
theorem escBody_append (l r : List Char) :
    escBody (l ++ r) = escBody l ++ escBody r := by
  induction l with
  | nil => rfl
  | cons c t ih => simp [escBody, ih]

/-- On a single character the replacement body acts exactly as the
regex replace: a quote becomes the four-character sequence, anything
else stays. -/
theorem escBody_singleton (c : Char) :
    escBody [c] = if c = squote then [squote, backslash, squote, squote] else [c] := by
  simp [escBody, escChar]

/-- Entering a single-quoted span. -/
theorem shEval_true_sq (rest : List Char) :
    shEval true (squote :: rest) = shEval false rest := by
  cases rest <;> rfl

/-- Leaving unquoted state for a single-quoted span. -/
theorem shEval_false_sq (rest : List Char) :
    shEval false (squote :: rest) = shEval true rest := by
  cases rest <;> rfl

/-- An unquoted backslash makes the next character literal. -/
theorem shEval_false_bs (d : Char) (rest : List Char) :
    shEval false (backslash :: d :: rest) = (shEval false rest).map (fun l => d :: l) := by
  rfl

/-- Inside a single-quoted span every character other than the quote is
literal. -/
theorem shEval_true_other {c : Char} (hc : ¬ c = squote) (rest : List Char) :
    shEval true (c :: rest) = (shEval true rest).map (fun l => c :: l) := by
  show (if c = squote then shEval false rest
    else (shEval true rest).map (fun l => c :: l)) = _
  rw [if_neg hc]

/-- Evaluating the escaped body of a string followed by the closing quote,
starting inside the quoted span, yields the original characters. -/
theorem escBody_eval (s : List Char) :
    shEval true (escBody s ++ [squote]) = some s := by
  induction s with
  | nil => rfl
  | cons c t ih =>
    by_cases hc : c = squote
    · subst hc
      rw [escBody, show escChar squote = [squote, backslash, squote, squote] from rfl]
      simp only [List.cons_append, List.nil_append, List.append_assoc]
      rw [shEval_true_sq, shEval_false_bs, shEval_false_sq, ih]
      rfl
    · rw [escBody, show escChar c = [c] from by rw [escChar, if_neg hc]]
      simp only [List.cons_append, List.nil_append, List.append_assoc]
      rw [shEval_true_other hc, ih]
      rfl

/-- A needle starts a haystack exactly when the haystack extends it. -/
theorem startsWithSeg_iff (n h : List Char) :
    startsWithSeg n h = true ↔ ∃ r, h = n ++ r := by
  induction n generalizing h with
  | nil => simp [startsWithSeg]
  | cons a n ih =>
    cases h with
    | nil => simp [startsWithSeg]
    | cons b t =>
      simp only [startsWithSeg, Bool.and_eq_true, beq_iff_eq, ih, List.cons_append,
        List.cons.injEq]
      constructor
      · rintro ⟨rfl, r, rfl⟩
        exact ⟨r, rfl, rfl⟩
      · rintro ⟨r, rfl, rfl⟩
        exact ⟨rfl, r, rfl⟩

/-- containsSeg decides contiguous substring occurrence. -/
theorem containsSeg_iff (n h : List Char) :
    containsSeg n h = true ↔ ∃ l r, h = l ++ (n ++ r) := by
  induction h with
  | nil =>
    simp only [containsSeg, List.isEmpty_iff]
    constructor
    · rintro rfl
      exact ⟨[], [], rfl⟩
    · rintro ⟨l, r, hl⟩
      rcases List.append_eq_nil.mp hl.symm with ⟨rfl, h2⟩
      rcases List.append_eq_nil.mp h2 with ⟨rfl, rfl⟩
      rfl
  | cons c t ih =>
    simp only [containsSeg, Bool.or_eq_true, startsWithSeg_iff, ih]
    constructor
    · rintro (⟨r, hr⟩ | ⟨l, r, rfl⟩)
      · exact ⟨[], r, hr⟩
      · exact ⟨c :: l, r, rfl⟩
    · rintro ⟨l, r, hl⟩
      cases l with
      | nil => exact Or.inl ⟨r, by simpa using hl⟩
      | cons x l =>
        rw [List.cons_append] at hl
        injection hl with h1 h2
        exact Or.inr ⟨l, r, h2⟩

/-! The claim theorems. -/

/-- C1: escapeShellArg returns its argument surrounded by single quotes
with every embedded single quote replaced by the four-character sequence
quote, backslash, quote, quote, and every other character kept; in
particular add_task with the description It-quote-s a test emits the
command carrying the escaped token quote It quote backslash quote quote s
space a space test quote. -/
theorem escapeShellArg_single_quote_escaping :
    (∀ l r : List Char, escBody (l ++ r) = escBody l ++ escBody r) ∧
    (∀ c : Char, escBody [c] =
      if c = squote then [squote, backslash, squote, squote] else [c]) ∧
    (∀ s : String, (escapeShellArg s).data = squote :: (escBody s.data ++ [squote])) ∧
    add_task { description := itsATest } = .ok addItsCmd :=
  ⟨escBody_append, escBody_singleton, fun _ => rfl, rfl⟩

/-- C2: for every string containing an embedded single quote, escaping
with escapeShellArg and then removing POSIX shell quoting reproduces the
original string exactly. -/
theorem escape_shell_unquote_roundTrip (s : String) (h : squote ∈ s.data) :
    shEval false (escapeShellArg s).data = some s.data := by
  show shEval false ((squote :: escBody s.data) ++ [squote]) = _
  simp only [List.cons_append]
  rw [shEval_false_sq]
  exact escBody_eval s.data

/-- Witness for C2 at the spec's worked example, which contains an
embedded single quote. -/
theorem escape_shell_unquote_roundTrip_witness :
    squote ∈ itsATest.data ∧
    shEval false (escapeShellArg itsATest).data = some itsATest.data :=
  ⟨by decide, escape_shell_unquote_roundTrip itsATest (by decide)⟩

/-- C3 counterexample: mark_task_done validates the empty identifier
successfully and builds a command, so an explicitly empty required text
field is not a validation failure there. -/
theorem mark_task_done_empty_identifier_cex :
    mark_task_done "" = .ok "task  done" := rfl

/-- C3 corrected: among the listed required text fields only the
modify_task identifier and the modify_tasks_bulk filter reject the empty
string; the identifiers of mark_task_done, get_task_info, delete_task,
annotate_task, append_task, prepend_task and duplicate_task, and the
add_task description, accept the empty string and a command is built. -/
theorem empty_required_text_fields_amended (d : ModifyData) :
    modify_task "" d = .error (.invalidArgs "modify_task") ∧
    modify_tasks_bulk "" d = .error (.invalidArgs "modify_tasks_bulk") ∧
    mark_task_done "" = .ok "task  done" ∧
    get_task_info "" = .ok "task  info" ∧
    delete_task "" = .ok "task rc.confirmation=no  delete" ∧
    annotate_task "" "" = .ok ("task  annotate " ++ escapeShellArg "") ∧
    append_task "" "" = .ok ("task  append " ++ escapeShellArg "") ∧
    prepend_task "" "" = .ok ("task  prepend " ++ escapeShellArg "") ∧
    duplicate_task "" = .ok "task  duplicate" ∧
    add_task { description := "" } = .ok ("task add " ++ escapeShellArg "") :=
  ⟨rfl, rfl, rfl, rfl, rfl, rfl, rfl, rfl, rfl, rfl⟩

/-- C4 counterexample: modify_task escapes its identifier rather than
inserting it as-is; for the identifier a-quote-b the accepted request
builds a command line in which that identifier text does not occur at
all. -/
theorem modify_task_escapes_identifier_cex :
    modify_task idWithQuote noMods = .ok modCmdQuote ∧
    ¬ ∃ l r : List Char, modCmdQuote.data = l ++ (idWithQuote.data ++ r) := by
  refine ⟨rfl, ?_⟩
  intro hex
  have hc := (containsSeg_iff idWithQuote.data modCmdQuote.data).mpr hex
  exact absurd hc (by decide)

/-- C4 corrected: the identifiers of mark_task_done, get_task_info,
delete_task, annotate_task, append_task, prepend_task and duplicate_task
and the modify_tasks_bulk filter are inserted as-is with tokens joined by
single spaces, but modify_task inserts the shell-escaped identifier, not
the raw text. -/
theorem identifier_filter_insertion_amended (id s f : String) (d : ModifyData)
    (hm : modifyTaskValid id d = true) (hb : modifyBulkValid f d = true) :
    mark_task_done id = .ok ("task " ++ id ++ " done") ∧
    get_task_info id = .ok ("task " ++ id ++ " info") ∧
    delete_task id = .ok ("task rc.confirmation=no " ++ id ++ " delete") ∧
    annotate_task id s = .ok ("task " ++ id ++ " annotate " ++ escapeShellArg s) ∧
    append_task id s = .ok ("task " ++ id ++ " append " ++ escapeShellArg s) ∧
    prepend_task id s = .ok ("task " ++ id ++ " prepend " ++ escapeShellArg s) ∧
    duplicate_task id = .ok ("task " ++ id ++ " duplicate") ∧
    modify_task id d = (match buildTaskModifyArgs d with
      | .ok args => .ok ("task " ++ escapeShellArg id ++ " modify " ++
          String.intercalate " " args)
      | .error e => .error e) ∧
    modify_tasks_bulk f d = (match buildTaskModifyArgs d with
      | .ok args => .ok ("yes | task " ++ f ++ " modify " ++
          String.intercalate " " args)
      | .error e => .error e) := by
  refine ⟨rfl, rfl, rfl, rfl, rfl, rfl, rfl, ?_, ?_⟩
  · simp [modify_task, hm]
  · simp [modify_tasks_bulk, hb]

/-- Witness for C4 amended at concrete accepted requests. -/
theorem identifier_filter_insertion_amended_witness :
    mark_task_done "5" = .ok ("task " ++ "5" ++ " done") ∧
    get_task_info "5" = .ok ("task " ++ "5" ++ " info") ∧
    delete_task "5" = .ok ("task rc.confirmation=no " ++ "5" ++ " delete") ∧
    annotate_task "5" "note" = .ok ("task " ++ "5" ++ " annotate " ++ escapeShellArg "note") ∧
    append_task "5" "note" = .ok ("task " ++ "5" ++ " append " ++ escapeShellArg "note") ∧
    prepend_task "5" "note" = .ok ("task " ++ "5" ++ " prepend " ++ escapeShellArg "note") ∧
    duplicate_task "5" = .ok ("task " ++ "5" ++ " duplicate") ∧
    modify_task "5" noMods = (match buildTaskModifyArgs noMods with
      | .ok args => .ok ("task " ++ escapeShellArg "5" ++ " modify " ++
          String.intercalate " " args)
      | .error e => .error e) ∧
    modify_tasks_bulk "project:x" noMods = (match buildTaskModifyArgs noMods with
      | .ok args => .ok ("yes | task " ++ "project:x" ++ " modify " ++
          String.intercalate " " args)
      | .error e => .error e) :=
  identifier_filter_insertion_amended "5" "note" "project:x" noMods (by decide) (by decide)

/-- C5 counterexample: the value 99th is not an ordinal day from 1st to
31st and matches none of the other claimed grammars, yet parseFlexibleDate
accepts it and the builder emits it unchanged. -/
theorem ordinal_date_99th_cex :
    parseFlexibleDate "99th" = .ok "99th" ∧
    claimedDateGrammar "99th" = false ∧
    buildTaskModifyArgs { due := some "99th" } = .ok ["due:99th"] :=
  ⟨rfl, rfl, rfl⟩

/-- C5 corrected: a nonempty date value is emitted unchanged exactly when
it matches the code's six grammars, whose ordinal alternative is any one-
or two-digit number followed by a case-insensitive ordinal ending (not
restricted to 1st through 31st); any other nonempty value produces a
date-format error and no command, before any process is spawned. -/
theorem date_grammar_passthrough_amended (v : String) (hne : v.isEmpty = false) :
    (flexibleDateOk v = true →
      parseFlexibleDate v = .ok v ∧
      buildTaskModifyArgs { due := some v } = .ok ["due:" ++ v]) ∧
    (flexibleDateOk v = false →
      parseFlexibleDate v = .error (.dateFormat (dateErrMsg v)) ∧
      buildTaskModifyArgs { due := some v } = .error (.dateFormat (dateErrMsg v))) := by
  constructor <;> intro hv <;>
    simp [parseFlexibleDate, hv, buildTaskModifyArgs, dateArg, hne, strIf]

/-- Witness for C5 amended at an accepted named date. -/
theorem date_grammar_passthrough_amended_witness :
    parseFlexibleDate "tomorrow" = .ok "tomorrow" ∧
    buildTaskModifyArgs { due := some "tomorrow" } = .ok ["due:" ++ "tomorrow"] :=
  (date_grammar_passthrough_amended "tomorrow" (by decide)).1 (by decide)

/-- C6 counterexample: on add_task the project token is emitted with shell
quoting applied, and the quoted token differs from the raw one the claim
requires. -/
theorem add_task_escapes_project_cex :
    addTaskArgs { description := "x", project := some "work" } =
      .ok ["add", escapeShellArg "x", "project:" ++ escapeShellArg "work"] ∧
    "project:" ++ escapeShellArg "work" ≠ "project:work" :=
  ⟨rfl, by decide⟩

/-- C6 corrected: on the modify builder the project, priority, tag and
date tokens carry the field value unescaped, and on add_task the due and
priority tokens are unescaped, but the add_task project and tag tokens
are shell-escaped. -/
theorem constrained_fields_unescaped_amended (proj pri tg dsc v : String)
    (hp : proj.isEmpty = false) (hpri : pri.isEmpty = false)
    (hv : flexibleDateOk v = true) (hvne : v.isEmpty = false) :
    buildTaskModifyArgs
        { priority := some pri, project := some proj,
          tags := some [tg], tags_remove := some [tg] } =
      .ok ["priority:" ++ pri, "project:" ++ proj, "+" ++ tg, "-" ++ tg] ∧
    addTaskArgs
        { description := dsc, due := some v, priority := some pri,
          project := some proj, tags := some [tg] } =
      .ok ["add", escapeShellArg dsc, "due:" ++ v, "priority:" ++ pri,
        "project:" ++ escapeShellArg proj, "+" ++ escapeShellArg tg] := by
  constructor <;>
    simp [buildTaskModifyArgs, addTaskArgs, dateArg, parseFlexibleDate,
      strIf, hp, hpri, hv, hvne]

/-- Witness for C6 amended at concrete field values. -/
theorem constrained_fields_unescaped_amended_witness :
    buildTaskModifyArgs
        { priority := some "H", project := some "work",
          tags := some ["home"], tags_remove := some ["home"] } =
      .ok ["priority:" ++ "H", "project:" ++ "work", "+" ++ "home", "-" ++ "home"] ∧
    addTaskArgs
        { description := "x", due := some "today", priority := some "H",
          project := some "work", tags := some ["home"] } =
      .ok ["add", escapeShellArg "x", "due:" ++ "today", "priority:" ++ "H",
        "project:" ++ escapeShellArg "work", "+" ++ escapeShellArg "home"] :=
  constrained_fields_unescaped_amended "work" "H" "home" "x" "today"
    (by decide) (by decide) (by decide) (by decide)

/-- C7 counterexample: the tag Work matches the claimed pattern with
uppercase letters allowed, yet both modify_task and add_task reject it as
a validation failure. -/
theorem uppercase_tag_rejected_cex :
    claimedTagPattern "Work" = true ∧
    modify_task "1" { tags := some ["Work"] } = .error (.invalidArgs "modify_task") ∧
    add_task { description := "x", tags := some ["Work"] } =
      .error (.invalidArgs "add_task") :=
  ⟨rfl, rfl, rfl⟩

/-- C7 corrected: a tag string is accepted exactly when it is nonempty and
every character is an at-sign, a lowercase ASCII letter, an ASCII digit,
an underscore or a hyphen; uppercase letters are rejected. -/
theorem tag_pattern_lowercase_amended (t : String) :
    tagRegex t = true ↔
      (t.data ≠ [] ∧ ∀ c ∈ t.data,
        c = '@' ∨ c.isLower = true ∨ c.isDigit = true ∨ c = '_' ∨ c = '-') := by
  unfold tagRegex
  simp only [Bool.and_eq_true, Bool.not_eq_true', List.all_eq_true, Bool.or_eq_true,
    beq_iff_eq]
  constructor
  · rintro ⟨h1, h2⟩
    refine ⟨by simpa [List.isEmpty_iff] using h1, fun c hc => ?_⟩
    have h3 := h2 c hc
    tauto
  · rintro ⟨h1, h2⟩
    refine ⟨by simpa [List.isEmpty_iff] using h1, fun c hc => ?_⟩
    have h3 := h2 c hc
    tauto

/-- C8: every command line an accepted modify_tasks_bulk request actually
executes begins with the automatic affirmative-answer pipe. -/
theorem modify_tasks_bulk_yes_pipe (f : String) (d : ModifyData) (c : String)
    (h : modify_tasks_bulk f d = .ok c) : ∃ rest, c = "yes | " ++ rest := by
  unfold modify_tasks_bulk at h
  split at h
  · split at h
    · rename_i args heq
      injection h with h2
      refine ⟨"task " ++ (f ++ (" modify " ++ String.intercalate " " args)), ?_⟩
      rw [← h2]
      rw [string_append_assoc, string_append_assoc]
      rw [show ("yes | task " : String) = "yes | " ++ "task " from rfl,
        string_append_assoc]
    · exact absurd h (by simp)
  · exact absurd h (by simp)

/-- Witness for C8 at a concrete accepted bulk request. -/
theorem modify_tasks_bulk_yes_pipe_witness :
    ∃ rest, "yes | task project:x modify " = "yes | " ++ rest :=
  modify_tasks_bulk_yes_pipe "project:x" noMods "yes | task project:x modify " rfl

/-- C9 counterexample: the advertised tool catalog does not have 18
entries. -/
theorem tool_catalog_not_18_cex : ¬ toolCatalog.length = 18 := by decide

/-- C9 corrected: the catalog is closed and contains exactly 17 distinct
named operations, and the dispatcher handles exactly those 17 names. -/
theorem tool_catalog_17_amended :
    toolCatalog.length = 17 ∧ toolCatalog.Nodup ∧
      ∀ n : String, (dispatchKnown n = true ↔ n ∈ toolCatalog) := by
  refine ⟨by decide, by decide, ?_⟩
  intro n
  simp only [dispatchKnown, toolCatalog, Bool.or_eq_true, beq_iff_eq,
    List.mem_cons, List.not_mem_nil, or_false]
  tauto

/-- C10: for every delete_task identifier the built command line begins
with the engine name followed immediately by the confirmation override
token, and undo_last builds exactly the overridden undo command. -/
theorem delete_undo_confirmation_override (id : String) :
    (∃ rest, delete_task id = .ok ("task rc.confirmation=no " ++ rest)) ∧
    undo_last = .ok "task rc.confirmation=no undo" := by
  refine ⟨⟨id ++ " delete", ?_⟩, rfl⟩
  unfold delete_task
  rw [string_append_assoc]
